import Mathlib

/-!
Shallow embedding of the `typesentinel` repository's runtime type-checking
machinery (`src/type_checking/type_check.py`, `src/type_checking/decorator.py`
and `src/typesentinel/decorator.py`), together with theorems settling the
claims about its specification.

Modelling conventions:
* A Python class is identified by its name; a runtime value carries its
  method-resolution order (list of class names, most derived first) plus an
  opaque payload distinguishing values of the same class.  `isinstance`
  becomes membership of the class name in the value's MRO.
* Fallible Python code is embedded as `Except PyError _`; the distinct
  exception classes raised by the source are separate `PyError` constructors.
* Call signatures are modelled with positional-or-keyword parameters only
  (the source's tests and claims never involve `*args` / `**kwargs`
  var-parameters).
-/

/-- A Python class, identified by its name (`int`, `str`, ...). -/
structure PyType where
  tname : String
deriving DecidableEq, Repr

/-- A Python runtime value: its MRO (class names, most derived first)
and an opaque payload distinguishing values of the same class. -/
structure PyVal where
  mro : List String
  payload : String
deriving DecidableEq, Repr

/-- `isinstance(v, t)`: the class `t` occurs in the value's MRO. -/
def pyIsinstance (v : PyVal) (t : PyType) : Bool :=
  v.mro.contains t.tname

/-- `type(v).__name__`: the most derived class of the value. -/
def typeNameOf (v : PyVal) : String :=
  v.mro.headD "object"

/-- Sample values used by concrete witnesses. -/
def intVal (n : Int) : PyVal := ⟨["int", "object"], toString n⟩

def strVal (s : String) : PyVal := ⟨["str", "object"], s⟩

def floatVal (s : String) : PyVal := ⟨["float", "object"], s⟩

def boolVal (b : Bool) : PyVal := ⟨["bool", "int", "object"], toString b⟩

/-- Python's `None`. -/
def pyNone : PyVal := ⟨["NoneType", "object"], "None"⟩

/-- `ArgKind` enum from `type_check.py`. -/
inductive ArgKind where
  | POSITIONAL
  | KEYWORD
deriving DecidableEq, Repr

/-- `ArgKind.value` (the enum's string payload). -/
def ArgKind.value : ArgKind → String
  | .POSITIONAL => "positional"
  | .KEYWORD => "keyword"

/-- The raw object supplied as a `TypeCheck` key.  `TypeKey = str | int`
is only enforced by `__post_init__`; a caller can pass anything, so the
model also has a constructor for a non-`str`/`int` object (identified by
its class name).  `bool` is kept separate because Python's `bool` is a
subclass of `int`. -/
inductive KeyInput where
  | kInt (n : Int)
  | kStr (s : String)
  | kBool (b : Bool)
  | kOther (className : String)
deriving DecidableEq, Repr

/-- `str(key)`. -/
def strOfKey : KeyInput → String
  | .kInt n => toString n
  | .kStr s => s
  | .kBool b => if b then "True" else "False"
  | .kOther c => "<" ++ c ++ " object>"

/-- `isinstance(key, (str, int))` — `bool` passes because it subclasses `int`. -/
def keyIsStrOrInt : KeyInput → Bool
  | .kOther _ => false
  | _ => true

/-- `isinstance(key, valid_arg_kind_map[arg_kind])`: `int` keys (including
`bool`) for positional checks, `str` keys for keyword checks. -/
def keyMatchesKind (k : KeyInput) (kind : ArgKind) : Bool :=
  match kind, k with
  | .POSITIONAL, .kInt _ => true
  | .POSITIONAL, .kBool _ => true
  | .KEYWORD, .kStr _ => true
  | _, _ => false

/-- `type(key).__name__`. -/
def keyClassName : KeyInput → String
  | .kInt _ => "int"
  | .kStr _ => "str"
  | .kBool _ => "bool"
  | .kOther c => c

/-- `valid_arg_kind_map[arg_kind].__name__`. -/
def kindKeyTypeName : ArgKind → String
  | .POSITIONAL => "int"
  | .KEYWORD => "str"

/-- A valid `expected_type`: either a plain Python class or a union.
Both union kinds satisfy `get_origin(tp) is Union or get_origin(tp) is
types.UnionType` and `get_args` yields the member classes, so validation
and `get_type_name` treat them identically; they differ only in attribute
access (see `dunderName`), so the flag `pep604` records whether the
object is a `types.UnionType` (`int | str`) rather than a
`typing.Union[...]` alias. -/
inductive ExpectedType where
  | single (t : PyType)
  | unionT (pep604 : Bool) (ts : List PyType)
deriving DecidableEq, Repr

/-- The raw object supplied as `expected_type` to the `TypeCheck`
constructor: either a valid type/union, or some other object (identified
by its class name) that `__post_init__` must reject. -/
inductive ExpectedInput where
  | valid (e : ExpectedType)
  | invalid (className : String)
deriving DecidableEq, Repr

/-- `get_type_name` from `type_check.py`, restricted to the two cases a
constructed check can hold (plain class, union of classes). -/
def getTypeName : ExpectedType → String
  | .single t => t.tname
  | .unionT _ ts => String.intercalate " | " (ts.map (·.tname))

/-- `expected_type.__name__`: plain classes expose their class name;
`typing.Union[...]` aliases expose `__name__ == "Union"` (CPython
3.11–3.13, via `typing._GenericAlias.__getattr__`, which special-cases
`__name__`); PEP 604 `types.UnionType` objects (`int | str`) expose no
`__name__`, so accessing it raises `AttributeError`. -/
def dunderName : ExpectedType → Option String
  | .single t => some t.tname
  | .unionT pep604 _ => if pep604 then none else some "Union"

/-- Python exceptions the embedded code can raise. -/
inductive PyError where
  | typeError (msg : String)
  | valueError (msg : String)
  | keyError (msg : String)
  | indexError (msg : String)
  | attributeError (msg : String)
  | unboundLocalError (msg : String)
deriving DecidableEq, Repr

/-- A constructed `TypeCheck` (after `__post_init__` ran): `message` and
`name` are always set (the dataclass fills them in when `None` is given).
`DefaultTypeCheckKwarg` is a behaviour-free subclass, so it is modelled as
the flag `isDefaultKwarg` (matching `isinstance(tc, DefaultTypeCheckKwarg)`). -/
structure TypeCheck where
  key : KeyInput
  expected_type : ExpectedType
  arg_kind : ArgKind
  message : String
  name : String
  isDefaultKwarg : Bool
deriving DecidableEq, Repr

/-- `TypeCheck.error_message`. -/
def TypeCheck.error_message (tc : TypeCheck) (actualTypeName : String) : String :=
  tc.message ++ ", got " ++ actualTypeName

/-- `TypeCheck.validate`: unions pass when the value is an instance of some
member (`isinstance(value, get_args(...))`), plain classes when the value is
an instance of the class; otherwise `TypeError(self.error_message(type(value)))`. -/
def TypeCheck.validate (tc : TypeCheck) (value : PyVal) : Except PyError PyVal :=
  match tc.expected_type with
  | .unionT _ ts =>
      if ts.any (fun t => pyIsinstance value t) then .ok value
      else .error (.typeError (tc.error_message (typeNameOf value)))
  | .single t =>
      if pyIsinstance value t then .ok value
      else .error (.typeError (tc.error_message (typeNameOf value)))

/-- `TypeCheck.__post_init__` together with the dataclass constructor:
validates the key's class, the expected type, and the key/kind pairing,
then fills in the defaulted `name` and `message` fields. -/
def mkTypeCheck (key : KeyInput) (expected : ExpectedInput) (arg_kind : ArgKind)
    (message : Option String) (name : Option String) (isDefaultKwarg : Bool) :
    Except PyError TypeCheck :=
  if ¬ keyIsStrOrInt key then
    .error (.typeError "key must be str or int")
  else
    match expected with
    | .invalid _ => .error (.typeError "expected_type must be a Python type or Union")
    | .valid e =>
        if ¬ keyMatchesKind key arg_kind then
          .error (.valueError (arg_kind.value ++ " arguments require a " ++
            kindKeyTypeName arg_kind ++ " key, got " ++ keyClassName key))
        else
          let name' := match name with
            | some n => n
            | none => strOfKey key
          let message' := match message with
            | some m => m
            | none => "Invalid type for argument '" ++ name' ++ "': expected " ++ getTypeName e
          .ok ⟨key, e, arg_kind, message', name', isDefaultKwarg⟩

/-- `DefaultTypeCheckKwarg.from_pair(key, expected_type)`: always succeeds
for a `str` key and a plain class, producing a keyword check that skips
validation when the keyword is missing. -/
def DefaultTypeCheckKwarg.from_pair (key : String) (expected : PyType) : TypeCheck :=
  { key := .kStr key
    expected_type := .single expected
    arg_kind := .KEYWORD
    message := "Invalid type for argument '" ++ key ++ "': expected " ++ expected.tname
    name := key
    isDefaultKwarg := true }

/-- `TypeCheckResult` from `type_check.py`. -/
structure TypeCheckResult where
  type_check : TypeCheck
  value : PyVal
  passed : Bool
deriving DecidableEq, Repr

theorem mkTypeCheck_from_pair (key : String) (t : PyType) :
    mkTypeCheck (.kStr key) (.valid (.single t)) .KEYWORD none none true =
      .ok (DefaultTypeCheckKwarg.from_pair key t) := rfl

/-- Input accepted by the `type_checks` parameter of `TypeCheckDecorator`:
a single `TypeCheck`, a list of them, or `None`.  (The `dict` /
`TypeCheck.from_dict` input format carries heterogeneous Python dicts and
is not needed by any claim, so it is outside the model.) -/
inductive TypeChecksInput where
  | noChecks
  | one (tc : TypeCheck)
  | many (tcs : List TypeCheck)
deriving Repr

/-- `TypeCheckDecorator._normalize_checks`: flatten the explicit checks and
append one `DefaultTypeCheckKwarg` per keyword-shorthand entry. -/
def normalizeChecks (type_checks : TypeChecksInput) (kw_shorthand : List (String × PyType)) :
    List TypeCheck :=
  (match type_checks with
    | .noChecks => []
    | .one tc => [tc]
    | .many tcs => tcs) ++
  kw_shorthand.map (fun p => DefaultTypeCheckKwarg.from_pair p.1 p.2)

/-- A declared parameter (positional-or-keyword) with an optional default. -/
structure Param where
  pname : String
  default : Option PyVal
deriving DecidableEq, Repr

/-- Dict lookup on the bound-arguments mapping. -/
def lookupStr (m : List (String × PyVal)) (k : String) : Option PyVal :=
  (m.find? (fun p => p.1 = k)).map (·.2)

/-- Bind one parameter (at position `i`) from the call's positional and
keyword arguments, falling back to the declared default
(`Signature.bind` followed by `BoundArguments.apply_defaults`). -/
def bindOne (args : List PyVal) (kwargs : List (String × PyVal)) (i : Nat) (p : Param) :
    Except PyError (String × PyVal) :=
  match args.get? i with
  | some v =>
      if kwargs.any (fun kv => kv.1 = p.pname) then
        .error (.typeError ("multiple values for argument '" ++ p.pname ++ "'"))
      else .ok (p.pname, v)
  | none =>
      match lookupStr kwargs p.pname with
      | some v => .ok (p.pname, v)
      | none =>
          match p.default with
          | some d => .ok (p.pname, d)
          | none => .error (.typeError ("missing a required argument: '" ++ p.pname ++ "'"))

/-- Bind every parameter, positionally indexed from `i`. -/
def bindParams (args : List PyVal) (kwargs : List (String × PyVal)) :
    Nat → List Param → Except PyError (List (String × PyVal))
  | _, [] => .ok []
  | i, p :: rest => do
      let v ← bindOne args kwargs i p
      let others ← bindParams args kwargs (i + 1) rest
      .ok (v :: others)

/-- `signature.bind(*args, **kwargs)` followed by `bound.apply_defaults()`:
after `apply_defaults` the arguments mapping holds every declared parameter
in declaration order (supplied value or declared default).  Errors mirror
`Signature.bind`'s `TypeError`s; which of several applicable errors is
raised first is irrelevant to the claims. -/
def bindApplyDefaults (sig : List Param) (args : List PyVal)
    (kwargs : List (String × PyVal)) : Except PyError (List (String × PyVal)) :=
  if sig.length < args.length then
    .error (.typeError "too many positional arguments")
  else if kwargs.any (fun kv => ¬ sig.any (fun p => p.pname = kv.1)) then
    .error (.typeError "got an unexpected keyword argument")
  else bindParams args kwargs 0 sig

/-- `int(tc.key)` as used by positional resolution (`arg_names[int(tc.key)]`). -/
def pyIntOfKey : KeyInput → Option Int
  | .kInt n => some n
  | .kBool b => some (if b then 1 else 0)
  | .kStr s => s.toInt?
  | .kOther _ => none

/-- Python list indexing: negative indices count from the end; out-of-range
indices are `IndexError` (`none`). -/
def pyListIndex (l : List String) (i : Int) : Option String :=
  if 0 ≤ i then l.get? i.toNat
  else
    let j := (l.length : Int) + i
    if 0 ≤ j then l.get? j.toNat else none

/-- Does `tc.key in bound_arguments` hold?  The mapping's keys are parameter
names (`str`), so only a `str` key can be present. -/
def keyInBound (k : KeyInput) (bound : List (String × PyVal)) : Bool :=
  match k with
  | .kStr s => bound.any (fun p => p.1 = s)
  | _ => false

/-- `TypeCheckDecorator._resolve_argument_value` (identical in both
decorator modules). -/
def resolve_argument_value (tc : TypeCheck) (bound : List (String × PyVal))
    (argNames : List String) : Except PyError PyVal :=
  match tc.arg_kind with
  | .POSITIONAL =>
      match pyIntOfKey tc.key with
      | none => .error (.typeError "int() argument is not an int")
      | some i =>
          match pyListIndex argNames i with
          | none => .error (.indexError ("TypeCheck refers to positional index " ++
              strOfKey tc.key ++ ", but only " ++ toString argNames.length ++
              " args were passed."))
          | some paramName =>
              match lookupStr bound paramName with
              | some v => .ok v
              | none => .error (.keyError paramName)
  | .KEYWORD =>
      if keyInBound tc.key bound then
        match tc.key with
        | .kStr s =>
            match lookupStr bound s with
            | some v => .ok v
            | none => .error (.keyError (strOfKey tc.key))
        | _ => .error (.keyError (strOfKey tc.key))
      else
        if tc.isDefaultKwarg then
          .error (.valueError "DefaultTypeCheckKwarg should skip missing args")
        else
          .error (.keyError ("Expected keyword '" ++ strOfKey tc.key ++
            "', but it was not provided."))

/-- The guard in `_validate_arguments` that skips a `DefaultTypeCheckKwarg`
keyword check whose key is absent from the bound arguments. -/
def skipCheck (tc : TypeCheck) (bound : List (String × PyVal)) : Bool :=
  decide (tc.arg_kind = .KEYWORD) && tc.isDefaultKwarg && !(keyInBound tc.key bound)

/-- The loop body of `TypeCheckDecorator._validate_arguments`
(`type_checking` module).  The `Option PyVal` argument is the state of the
Python local variable `value`: the `except` branch appends
`TypeCheckResult(tc, value, False)`, where `value` is whatever the last
successful `_resolve_argument_value` left behind — and raises
`UnboundLocalError` if no iteration assigned it yet. -/
def validateGo (bound : List (String × PyVal)) (argNames : List String) :
    List TypeCheck → Option PyVal → List TypeCheckResult →
    Except PyError (List TypeCheckResult)
  | [], _, acc => .ok acc
  | tc :: rest, lastVal, acc =>
      if skipCheck tc bound then validateGo bound argNames rest lastVal acc
      else
        match resolve_argument_value tc bound argNames with
        | .ok v =>
            match tc.validate v with
            | .ok _ => validateGo bound argNames rest (some v) (acc ++ [⟨tc, v, true⟩])
            | .error _ => validateGo bound argNames rest (some v) (acc ++ [⟨tc, v, false⟩])
        | .error _ =>
            match lastVal with
            | some v => validateGo bound argNames rest (some v) (acc ++ [⟨tc, v, false⟩])
            | none => .error (.unboundLocalError
                "cannot access local variable 'value' where it is not associated with a value")

/-- `TypeCheckDecorator._validate_arguments` (`type_checking` module):
returns `(all_results, failed_results)`. -/
def validate_arguments (checks : List TypeCheck) (bound : List (String × PyVal))
    (argNames : List String) :
    Except PyError (List TypeCheckResult × List TypeCheckResult) :=
  (validateGo bound argNames checks none []).map
    (fun all => (all, all.filter (fun r => !r.passed)))

/-- `tc.name or tc.key` inside the default handler's f-string: an empty
`name` is falsy and falls back to `str(key)`. -/
def nameOrKey (tc : TypeCheck) : String :=
  if tc.name = "" then strOfKey tc.key else tc.name

/-- One line of `default_on_type_check_failure`'s message, for a failed
check whose `expected_type` exposes `__name__`. -/
def failureLineStr (r : TypeCheckResult) (n : String) : String :=
  r.type_check.arg_kind.value ++ " argument '" ++ nameOrKey r.type_check ++
    "' expected type " ++ n ++ ", got " ++ typeNameOf r.value

/-- Building one message line: `tc.expected_type.__name__` raises
`AttributeError` when the expected type is a union. -/
def failureLine (r : TypeCheckResult) : Except PyError String :=
  match dunderName r.type_check.expected_type with
  | some n => .ok (failureLineStr r n)
  | none => .error (.attributeError "object has no attribute __name__")

/-- The message-collection loop of `default_on_type_check_failure`: one
line per failure, in order, the first union-typed failure raising. -/
def buildFailureLines : List TypeCheckResult → Except PyError (List String)
  | [] => .ok []
  | r :: rest => do
      let line ← failureLine r
      let others ← buildFailureLines rest
      .ok (line :: others)

/-- `default_on_type_check_failure` (`type_checking/decorator.py`): format
one line per failure, then raise `TypeError` with the joined message. -/
def default_on_type_check_failure (failures : List TypeCheckResult) :
    Except PyError Unit := do
  let msgs ← buildFailureLines failures
  .error (.typeError ("Type check failed:\n" ++ String.intercalate "\n" msgs))

/-- An `on_failure` callback: whether it is a coroutine function
(`inspect.iscoroutinefunction`), and its behaviour on the collected failed
results.  (`typesentinel` handlers receive a `TypeCheckContext`; the model
passes them the context's `failed_results` component, the only part the
claims inspect.) -/
structure HandlerSpec where
  isCoroutine : Bool
  impl : List TypeCheckResult → Except PyError Unit

/-- Observable events of one wrapped call: handler invocations (with the
failures they received, whether the default handler was used, and whether
the call was awaited) and wrapped-function invocations (awaited or not). -/
inductive Event where
  | handlerCall (failures : List TypeCheckResult) (usedDefault : Bool) (awaited : Bool)
  | funcCall (awaited : Bool)
deriving DecidableEq, Repr

/-- Is the event a handler invocation? -/
def Event.isHandlerCall : Event → Bool
  | .handlerCall _ _ _ => true
  | .funcCall _ => false

/-- `TypeCheckDecorator._handle_failures` (`type_checking` module): when
there are failures, call `on_failure` if supplied, otherwise the default
handler, passing every failed result; otherwise do nothing. -/
def handle_failures (on_failure : Option HandlerSpec) (failed : List TypeCheckResult) :
    Except PyError Unit × List Event :=
  match failed with
  | [] => (.ok (), [])
  | _ =>
      match on_failure with
      | some h => (h.impl failed, [.handlerCall failed false false])
      | none => (default_on_type_check_failure failed, [.handlerCall failed true false])

/-- `TypeCheckDecorator._handle_failures_async` (`type_checking` module):
same selection, but a coroutine handler is awaited (the default handler is
a plain function, so it is never awaited). -/
def handle_failures_async (on_failure : Option HandlerSpec) (failed : List TypeCheckResult) :
    Except PyError Unit × List Event :=
  match failed with
  | [] => (.ok (), [])
  | _ =>
      match on_failure with
      | some h => (h.impl failed, [.handlerCall failed false h.isCoroutine])
      | none => (default_on_type_check_failure failed, [.handlerCall failed true false])

/-- The decorator's state after `__init__`: the normalized checks and the
optional `on_failure` callback. -/
structure Decorator where
  normalized_checks : List TypeCheck
  on_failure : Option HandlerSpec

/-- `TypeCheckDecorator.__init__`. -/
def mkDecorator (type_checks : TypeChecksInput) (kw_shorthand : List (String × PyType))
    (on_failure : Option HandlerSpec) : Decorator :=
  ⟨normalizeChecks type_checks kw_shorthand, on_failure⟩

/-- A wrapped callable: its declared signature, whether it is a coroutine
function, and its behaviour on the raw call arguments. -/
structure FuncModel where
  sig : List Param
  isCoroutine : Bool
  impl : List PyVal → List (String × PyVal) → PyVal

/-- One call of the wrapper produced by
`TypeCheckDecorator._create_sync_wrapper` (`type_checking` module):
bind + apply defaults, validate, handle failures, then call the wrapped
function (also when the handler returned without raising). -/
def syncWrapperCall (dec : Decorator) (f : FuncModel) (args : List PyVal)
    (kwargs : List (String × PyVal)) : Except PyError PyVal × List Event :=
  match bindApplyDefaults f.sig args kwargs with
  | .error e => (.error e, [])
  | .ok bound =>
      let argNames := bound.map (·.1)
      match validate_arguments dec.normalized_checks bound argNames with
      | .error e => (.error e, [])
      | .ok (_, failed) =>
          let handled := handle_failures dec.on_failure failed
          match handled.1 with
          | .error e => (.error e, handled.2)
          | .ok _ => (.ok (f.impl args kwargs), handled.2 ++ [.funcCall false])

/-- One call of the wrapper produced by
`TypeCheckDecorator._create_async_wrapper` (`type_checking` module),
as observed by awaiting it: failures are handled via the async path, then
the wrapped function is awaited when it is a coroutine function and called
directly otherwise. -/
def asyncWrapperCall (dec : Decorator) (f : FuncModel) (args : List PyVal)
    (kwargs : List (String × PyVal)) : Except PyError PyVal × List Event :=
  match bindApplyDefaults f.sig args kwargs with
  | .error e => (.error e, [])
  | .ok bound =>
      let argNames := bound.map (·.1)
      match validate_arguments dec.normalized_checks bound argNames with
      | .error e => (.error e, [])
      | .ok (_, failed) =>
          let handled := handle_failures_async dec.on_failure failed
          match handled.1 with
          | .error e => (.error e, handled.2)
          | .ok _ => (.ok (f.impl args kwargs), handled.2 ++ [.funcCall f.isCoroutine])

/-- The two wrapper shapes `_create_wrapper` can produce. -/
inductive WrapperKind where
  | sync
  | async
deriving DecidableEq, Repr

/-- `self.on_failure and inspect.iscoroutinefunction(self.on_failure)`. -/
def isHandlerAsync (dec : Decorator) : Bool :=
  match dec.on_failure with
  | some h => h.isCoroutine
  | none => false

/-- `TypeCheckDecorator._create_wrapper`: async wrapper when the wrapped
function or the supplied handler is a coroutine function, sync otherwise. -/
def createWrapperKind (dec : Decorator) (f : FuncModel) : WrapperKind :=
  if f.isCoroutine || isHandlerAsync dec then .async else .sync

/-- Calling the wrapper `TypeCheckDecorator.__call__` produced for `f`
(awaiting it when it is the async wrapper). -/
def callWrapped (dec : Decorator) (f : FuncModel) (args : List PyVal)
    (kwargs : List (String × PyVal)) : Except PyError PyVal × List Event :=
  match createWrapperKind dec f with
  | .sync => syncWrapperCall dec f args kwargs
  | .async => asyncWrapperCall dec f args kwargs

/-- `TypeCheckDecorator._get_signature`: functions are identified by
Python object identity (modelled as `Nat`); `sigOf` is `inspect.signature`;
the cache is the decorator instance's `_signature_cache` dict.  Returns the
signature, the updated cache, and whether `inspect.signature` was invoked. -/
def get_signature (sigOf : Nat → List Param) (cache : List (Nat × List Param))
    (f : Nat) : List Param × List (Nat × List Param) × Bool :=
  match cache.find? (fun e => e.1 = f) with
  | some e => (e.2, cache, false)
  | none => (sigOf f, cache ++ [(f, sigOf f)], true)

/-- `TypeCheckDecorator._rename_check_if_needed` (`typesentinel` module):
a check without a custom name is renamed to the matched parameter's name.
`typesentinel`'s own `type_check` module is absent from the sources; per
its callers, `copy_with(name=...)` is modelled as replacing the `name`
field, everything else behaving as `type_checking`'s `TypeCheck`. -/
def renameCheckIfNeeded (tc : TypeCheck) (argNames : List String) : TypeCheck :=
  if tc.name ≠ strOfKey tc.key then tc
  else
    match tc.arg_kind, tc.key with
    | .POSITIONAL, .kInt n =>
        if 0 ≤ n ∧ n < (argNames.length : Int) then
          match argNames.get? n.toNat with
          | some paramName => { tc with name := paramName }
          | none => tc
        else tc
    | .POSITIONAL, .kBool b =>
        let n : Int := if b then 1 else 0
        if n < (argNames.length : Int) then
          match argNames.get? n.toNat with
          | some paramName => { tc with name := paramName }
          | none => tc
        else tc
    | .KEYWORD, _ => { tc with name := strOfKey tc.key }
    | _, _ => tc

/-- The loop body of `typesentinel`'s `_validate_arguments`: identical to
`type_checking`'s except that the recorded results carry the renamed check
(resolution still uses the original check).  It shares the `value`
local-variable behaviour, including the `UnboundLocalError`. -/
def tsValidateGo (bound : List (String × PyVal)) (argNames : List String) :
    List TypeCheck → Option PyVal → List TypeCheckResult →
    Except PyError (List TypeCheckResult)
  | [], _, acc => .ok acc
  | tc :: rest, lastVal, acc =>
      let rtc := renameCheckIfNeeded tc argNames
      if skipCheck tc bound then tsValidateGo bound argNames rest lastVal acc
      else
        match resolve_argument_value tc bound argNames with
        | .ok v =>
            match rtc.validate v with
            | .ok _ => tsValidateGo bound argNames rest (some v) (acc ++ [⟨rtc, v, true⟩])
            | .error _ => tsValidateGo bound argNames rest (some v) (acc ++ [⟨rtc, v, false⟩])
        | .error _ =>
            match lastVal with
            | some v => tsValidateGo bound argNames rest (some v) (acc ++ [⟨rtc, v, false⟩])
            | none => .error (.unboundLocalError
                "cannot access local variable 'value' where it is not associated with a value")

/-- `typesentinel`'s `_validate_arguments`. -/
def tsValidate_arguments (checks : List TypeCheck) (bound : List (String × PyVal))
    (argNames : List String) :
    Except PyError (List TypeCheckResult × List TypeCheckResult) :=
  (tsValidateGo bound argNames checks none []).map
    (fun all => (all, all.filter (fun r => !r.passed)))

/-- `default_on_type_check_failure` (`typesentinel/decorator.py`): raises
`TypeError` from the first failed result's `message`; returns silently on
an empty failure list. -/
def tsDefault_on_type_check_failure (failed : List TypeCheckResult) :
    Except PyError Unit :=
  match failed with
  | [] => .ok ()
  | first :: _ =>
      .error (.typeError (first.type_check.message ++ ", got " ++ typeNameOf first.value))

/-- `typesentinel`'s `_handle_failures` (the context's `failed_results`
guard, then handler selection). -/
def tsHandle_failures (on_failure : Option HandlerSpec) (failed : List TypeCheckResult) :
    Except PyError Unit × List Event :=
  match failed with
  | [] => (.ok (), [])
  | _ =>
      match on_failure with
      | some h => (h.impl failed, [.handlerCall failed false false])
      | none => (tsDefault_on_type_check_failure failed, [.handlerCall failed true false])

/-- One call of `typesentinel`'s synchronous wrapper
(`typesentinel/decorator.py`, `_create_sync_wrapper`): when some check
failed, the handler runs and the wrapper returns `None` **without**
calling the wrapped function; only an all-pass call reaches it. -/
def tsSyncWrapperCall (dec : Decorator) (f : FuncModel) (args : List PyVal)
    (kwargs : List (String × PyVal)) : Except PyError PyVal × List Event :=
  match bindApplyDefaults f.sig args kwargs with
  | .error e => (.error e, [])
  | .ok bound =>
      let argNames := bound.map (·.1)
      match tsValidate_arguments dec.normalized_checks bound argNames with
      | .error e => (.error e, [])
      | .ok (_, failed) =>
          match failed with
          | [] => (.ok (f.impl args kwargs), [.funcCall false])
          | _ =>
              let handled := tsHandle_failures dec.on_failure failed
              match handled.1 with
              | .error e => (.error e, handled.2)
              | .ok _ => (.ok pyNone, handled.2)

/-- The pass criterion as a boolean: the value is an instance of the
expected type (for a union, of at least one member). -/
def instanceTestB (e : ExpectedType) (v : PyVal) : Bool :=
  match e with
  | .single t => pyIsinstance v t
  | .unionT _ ts => ts.any (fun t => pyIsinstance v t)

/-- The claim's pass criterion, in the spec's words. -/
def isInstanceOfExpected (e : ExpectedType) (v : PyVal) : Prop :=
  match e with
  | .single t => pyIsinstance v t = true
  | .unionT _ ts => ∃ t ∈ ts, pyIsinstance v t = true

theorem isInstanceOfExpected_iff (e : ExpectedType) (v : PyVal) :
    isInstanceOfExpected e v ↔ instanceTestB e v = true := by
  cases e <;> simp [isInstanceOfExpected, instanceTestB, List.any_eq_true]

instance (e : ExpectedType) (v : PyVal) : Decidable (isInstanceOfExpected e v) :=
  decidable_of_iff _ (isInstanceOfExpected_iff e v).symm

theorem validate_eq_ite (tc : TypeCheck) (v : PyVal) :
    tc.validate v =
      if instanceTestB tc.expected_type v then .ok v
      else .error (.typeError (tc.error_message (typeNameOf v))) := by
  unfold TypeCheck.validate instanceTestB
  cases tc.expected_type <;> rfl

/-- C2: `TypeCheck.validate(value)` returns the value unchanged exactly
when the value is an instance of the expected type — for a union expected
type, an instance of at least one member type — and raises `TypeError`
otherwise; this instance test is the sole pass/fail criterion. -/
theorem validate_instance_test (tc : TypeCheck) (v : PyVal) :
    (tc.validate v = .ok v ↔ isInstanceOfExpected tc.expected_type v) ∧
    (¬ isInstanceOfExpected tc.expected_type v →
      tc.validate v = .error (.typeError (tc.error_message (typeNameOf v)))) := by
  rw [isInstanceOfExpected_iff, validate_eq_ite]
  constructor
  · split <;> simp_all
  · intro h
    split <;> simp_all

/-- Witness for C2 at a concrete check and value. -/
theorem validate_instance_test_witness :
    ¬ isInstanceOfExpected (.unionT true [⟨"int"⟩, ⟨"str"⟩]) (floatVal "5.5") ∧
    TypeCheck.validate
        ⟨.kInt 0, .unionT true [⟨"int"⟩, ⟨"str"⟩], .POSITIONAL, "m", "0", false⟩
        (floatVal "5.5") =
      .error (.typeError "m, got float") :=
  ⟨by decide,
   (validate_instance_test
      ⟨.kInt 0, .unionT true [⟨"int"⟩, ⟨"str"⟩], .POSITIONAL, "m", "0", false⟩
      (floatVal "5.5")).2 (by decide)⟩

/-- Does the raw `expected_type` object pass `__post_init__`'s test
(`isinstance(tp, type)` or a union origin)? -/
def expectedIsValid : ExpectedInput → Bool
  | .valid _ => true
  | .invalid _ => false

theorem mkTypeCheck_keyErr {key : KeyInput} (expected : ExpectedInput)
    (kind : ArgKind) (msg nm : Option String) (isDef : Bool)
    (h1 : keyIsStrOrInt key = false) :
    mkTypeCheck key expected kind msg nm isDef =
      .error (.typeError "key must be str or int") := by
  unfold mkTypeCheck
  simp [h1]

theorem mkTypeCheck_expErr {key : KeyInput} (c : String)
    (kind : ArgKind) (msg nm : Option String) (isDef : Bool)
    (h1 : keyIsStrOrInt key = true) :
    mkTypeCheck key (.invalid c) kind msg nm isDef =
      .error (.typeError "expected_type must be a Python type or Union") := by
  unfold mkTypeCheck
  simp [h1]

theorem mkTypeCheck_kindErr {key : KeyInput} {kind : ArgKind} (e : ExpectedType)
    (msg nm : Option String) (isDef : Bool)
    (h1 : keyIsStrOrInt key = true) (h3 : keyMatchesKind key kind = false) :
    mkTypeCheck key (.valid e) kind msg nm isDef =
      .error (.valueError (kind.value ++ " arguments require a " ++
        kindKeyTypeName kind ++ " key, got " ++ keyClassName key)) := by
  unfold mkTypeCheck
  simp [h1, h3]

theorem mkTypeCheck_ok {key : KeyInput} {kind : ArgKind} (e : ExpectedType)
    (msg nm : Option String) (isDef : Bool)
    (h1 : keyIsStrOrInt key = true) (h3 : keyMatchesKind key kind = true) :
    mkTypeCheck key (.valid e) kind msg nm isDef =
      .ok { key := key
            expected_type := e
            arg_kind := kind
            message := msg.getD ("Invalid type for argument '" ++
              nm.getD (strOfKey key) ++ "': expected " ++ getTypeName e)
            name := nm.getD (strOfKey key)
            isDefaultKwarg := isDef } := by
  unfold mkTypeCheck
  cases msg <;> cases nm <;> simp [h1, h3, Option.getD]

/-- C6: constructing a `TypeCheck` succeeds exactly when the key's class
matches the argument kind (an `int` key for `ArgKind.POSITIONAL`, a `str`
key for `ArgKind.KEYWORD`) and `expected_type` is a Python type or union;
a key that is neither `str` nor `int` raises `TypeError`, a key whose
class mismatches the kind raises `ValueError`, and an invalid
`expected_type` raises `TypeError`. -/
theorem post_init_validation (key : KeyInput) (expected : ExpectedInput)
    (kind : ArgKind) (msg nm : Option String) (isDef : Bool) :
    ((∃ tc, mkTypeCheck key expected kind msg nm isDef = .ok tc) ↔
      (keyIsStrOrInt key = true ∧ expectedIsValid expected = true ∧
        keyMatchesKind key kind = true)) ∧
    (keyIsStrOrInt key = false →
      mkTypeCheck key expected kind msg nm isDef =
        .error (.typeError "key must be str or int")) ∧
    (∀ c, keyIsStrOrInt key = true → expected = .invalid c →
      mkTypeCheck key expected kind msg nm isDef =
        .error (.typeError "expected_type must be a Python type or Union")) ∧
    (∀ e, keyIsStrOrInt key = true → expected = .valid e →
      keyMatchesKind key kind = false →
      mkTypeCheck key expected kind msg nm isDef =
        .error (.valueError (kind.value ++ " arguments require a " ++
          kindKeyTypeName kind ++ " key, got " ++ keyClassName key))) := by
  refine ⟨?_, ?_, ?_, ?_⟩
  · constructor
    · rintro ⟨tc, htc⟩
      rcases h1 : keyIsStrOrInt key with hf | ht
      · rw [mkTypeCheck_keyErr expected kind msg nm isDef h1] at htc
        exact absurd htc (by simp)
      · cases expected with
        | invalid c =>
            rw [mkTypeCheck_expErr c kind msg nm isDef h1] at htc
            exact absurd htc (by simp)
        | valid e =>
            rcases h3 : keyMatchesKind key kind with hf3 | ht3
            · rw [mkTypeCheck_kindErr e msg nm isDef h1 h3] at htc
              exact absurd htc (by simp)
            · exact ⟨rfl, rfl, rfl⟩
    · rintro ⟨h1, h2, h3⟩
      cases expected with
      | invalid c => simp [expectedIsValid] at h2
      | valid e => exact ⟨_, mkTypeCheck_ok e msg nm isDef h1 h3⟩
  · intro h1
    exact mkTypeCheck_keyErr expected kind msg nm isDef h1
  · rintro c h1 rfl
    exact mkTypeCheck_expErr c kind msg nm isDef h1
  · rintro e h1 rfl h3
    exact mkTypeCheck_kindErr e msg nm isDef h1 h3

/-- Witness for C6: a mismatched key/kind pair at a concrete input. -/
theorem post_init_validation_witness :
    keyIsStrOrInt (.kStr "0") = true ∧
    keyMatchesKind (.kStr "0") .POSITIONAL = false ∧
    mkTypeCheck (.kStr "0") (.valid (.single ⟨"int"⟩)) .POSITIONAL none none false =
      .error (.valueError "positional arguments require a int key, got str") :=
  ⟨by decide, by decide,
   (post_init_validation (.kStr "0") (.valid (.single ⟨"int"⟩)) .POSITIONAL
      none none false).2.2.2 (.single ⟨"int"⟩) (by decide) rfl (by decide)⟩

theorem get_signature_miss (sigOf : Nat → List Param) (cache : List (Nat × List Param))
    (f : Nat) (hmiss : cache.find? (fun e => e.1 = f) = none) :
    get_signature sigOf cache f = (sigOf f, cache ++ [(f, sigOf f)], true) := by
  unfold get_signature
  rw [hmiss]

theorem get_signature_hit (sigOf : Nat → List Param) (cache : List (Nat × List Param))
    (f : Nat) (e : Nat × List Param)
    (hhit : cache.find? (fun e => e.1 = f) = some e) :
    get_signature sigOf cache f = (e.2, cache, false) := by
  unfold get_signature
  rw [hhit]

/-- C8: `_get_signature` is memoized per decorator instance with no
eviction: a miss computes `inspect.signature(func)` and stores it, a hit
returns the stored signature without recomputation, the result always
equals `inspect.signature` of the argument (the cache invariant being
that every stored entry came from `inspect.signature`), and a repeated
call is idempotent. -/
theorem get_signature_memoized (sigOf : Nat → List Param)
    (cache : List (Nat × List Param)) (f : Nat)
    (hwf : ∀ e ∈ cache, e.2 = sigOf e.1) :
    (get_signature sigOf cache f).1 = sigOf f ∧
    (∀ e ∈ (get_signature sigOf cache f).2.1, e.2 = sigOf e.1) ∧
    (cache.find? (fun e => e.1 = f) = none →
      (get_signature sigOf cache f).2 = (cache ++ [(f, sigOf f)], true)) ∧
    get_signature sigOf (get_signature sigOf cache f).2.1 f =
      (sigOf f, (get_signature sigOf cache f).2.1, false) := by
  rcases hfind : cache.find? (fun e => e.1 = f) with _ | e
  · rw [get_signature_miss sigOf cache f hfind]
    refine ⟨rfl, ?_, fun _ => rfl, ?_⟩
    · intro e he
      rcases List.mem_append.mp he with h | h
      · exact hwf e h
      · simp only [List.mem_singleton] at h
        rw [h]
    · have hfind2 : (cache ++ [(f, sigOf f)]).find? (fun e => e.1 = f) =
          some (f, sigOf f) := by
        rw [List.find?_append, hfind]
        simp
      rw [get_signature_hit sigOf _ f _ hfind2]
  · have hef : e.1 = f := by
      have := List.find?_some hfind
      simpa using this
    have hmem : e ∈ cache := List.mem_of_find?_eq_some hfind
    have hval : e.2 = sigOf f := by rw [hwf e hmem, hef]
    rw [get_signature_hit sigOf cache f e hfind]
    refine ⟨hval, hwf, ?_, ?_⟩
    · intro h
      rw [h] at hfind
      cases hfind
    · rw [get_signature_hit sigOf cache f e hfind, hval]

/-- Witness for C8: a concrete two-call run starting from the empty cache. -/
theorem get_signature_memoized_witness :
    (∀ e ∈ ([] : List (Nat × List Param)), e.2 = (fun _ => [⟨"x", none⟩]) e.1) ∧
    (get_signature (fun _ => [⟨"x", none⟩]) [] 5).1 = [⟨"x", none⟩] ∧
    get_signature (fun _ => [⟨"x", none⟩])
        (get_signature (fun _ => [⟨"x", none⟩]) [] 5).2.1 5 =
      ([⟨"x", none⟩], (get_signature (fun _ => [⟨"x", none⟩]) [] 5).2.1, false) :=
  ⟨by simp,
   (get_signature_memoized (fun _ => [⟨"x", none⟩]) [] 5 (by simp)).1,
   (get_signature_memoized (fun _ => [⟨"x", none⟩]) [] 5 (by simp)).2.2.2⟩

/-- Did the computation raise a `TypeError`? -/
def isTypeErrorResult : Except PyError Unit → Bool
  | .error (.typeError _) => true
  | _ => false

/-- A failed result whose check expects a PEP 604 union
(`types.UnionType`, as in `int | str`) — used to refute C3. -/
def unionFailResult : TypeCheckResult :=
  ⟨⟨.kInt 0, .unionT true [⟨"int"⟩, ⟨"str"⟩], .POSITIONAL,
    "Invalid type for argument '0': expected int | str", "0", false⟩,
   floatVal "5.5", false⟩

/-- C3 counterexample: with a failed check whose expected type is a PEP
604 union, the default failure handler does not raise a `TypeError`
listing the expected type's name — `types.UnionType` objects expose no
`__name__`, so evaluating `tc.expected_type.__name__` raises
`AttributeError`. -/
theorem default_handler_union_counterexample :
    default_on_type_check_failure [unionFailResult] =
      .error (.attributeError "object has no attribute __name__") ∧
    isTypeErrorResult (default_on_type_check_failure [unionFailResult]) = false :=
  ⟨rfl, rfl⟩

theorem buildFailureLines_named (failures : List TypeCheckResult)
    (h : ∀ r ∈ failures, (dunderName r.type_check.expected_type).isSome = true) :
    buildFailureLines failures =
      .ok (failures.map (fun r =>
        failureLineStr r ((dunderName r.type_check.expected_type).getD ""))) := by
  induction failures with
  | nil => rfl
  | cons r rest ih =>
      obtain ⟨n, hn⟩ := Option.isSome_iff_exists.mp (h r (by simp))
      have hline : failureLine r =
          .ok (failureLineStr r ((dunderName r.type_check.expected_type).getD "")) := by
        unfold failureLine
        rw [hn]
        rfl
      have hrest := ih (fun r' hr' => h r' (by simp [hr']))
      simp only [buildFailureLines, hline, hrest, List.map_cons]
      rfl

/-- C3 (amended): when no `on_failure` callback is supplied and no failed
check's expected type is a PEP 604 union, the default failure handler
raises a `TypeError` whose message lists, for every failed check, the
argument kind, the argument name, the expected type's `__name__` (the
class name for a plain class, the string `"Union"` for a
`typing.Union[...]` alias) and the actual value's type name; when some
failed check's expected type is a PEP 604 union the default handler
raises `AttributeError` instead (`types.UnionType` objects expose no
`__name__`).  Supplying a custom `on_failure` replaces the default: the
custom callback is invoked with the failures and the default raising
handler is not invoked. -/
theorem default_handler_message_and_override :
    (∀ failures : List TypeCheckResult,
      (∀ r ∈ failures, (dunderName r.type_check.expected_type).isSome = true) →
      default_on_type_check_failure failures =
        .error (.typeError ("Type check failed:\n" ++ String.intercalate "\n"
          (failures.map (fun r =>
            failureLineStr r ((dunderName r.type_check.expected_type).getD "")))))) ∧
    (∀ (h : HandlerSpec) (failed : List TypeCheckResult), failed ≠ [] →
      handle_failures (some h) failed =
        (h.impl failed, [.handlerCall failed false false])) := by
  constructor
  · intro failures h
    unfold default_on_type_check_failure
    rw [buildFailureLines_named failures h]
    rfl
  · intro h failed hne
    cases failed with
    | nil => exact absurd rfl hne
    | cons a l => rfl

/-- A failed result whose check expects a plain class — used by witnesses. -/
def singleFailResult : TypeCheckResult :=
  ⟨⟨.kStr "a", .single ⟨"int"⟩, .KEYWORD,
    "Invalid type for argument 'a': expected int", "a", false⟩,
   strVal "bad", false⟩

/-- A failed result whose check expects a `typing.Union[int, str]` alias
(which exposes `__name__ == "Union"`) — used by the C3 witness. -/
def typingUnionFailResult : TypeCheckResult :=
  ⟨⟨.kInt 0, .unionT false [⟨"int"⟩, ⟨"str"⟩], .POSITIONAL,
    "Invalid type for argument '0': expected int | str", "0", false⟩,
   floatVal "5.5", false⟩

/-- Witness for C3 (amended) at concrete one-failure lists — a plain
class, a `typing.Union` alias — with and without a custom handler. -/
theorem default_handler_message_and_override_witness :
    default_on_type_check_failure [singleFailResult] =
      .error (.typeError
        "Type check failed:\nkeyword argument 'a' expected type int, got str") ∧
    default_on_type_check_failure [typingUnionFailResult] =
      .error (.typeError
        "Type check failed:\npositional argument '0' expected type Union, got float") ∧
    handle_failures (some ⟨false, fun _ => .ok ()⟩) [singleFailResult] =
      (.ok (), [.handlerCall [singleFailResult] false false]) :=
  ⟨default_handler_message_and_override.1 [singleFailResult]
     (by intro r hr
         rw [List.mem_singleton.mp hr]
         decide),
   default_handler_message_and_override.1 [typingUnionFailResult]
     (by intro r hr
         rw [List.mem_singleton.mp hr]
         decide),
   default_handler_message_and_override.2 ⟨false, fun _ => .ok ()⟩
     [singleFailResult] (by simp)⟩

/-- Did the check's validation pass on this value? -/
def passedFlag (tc : TypeCheck) (v : PyVal) : Bool :=
  match tc.validate v with
  | .ok _ => true
  | .error _ => false

/-- C9 counterexample: a plain keyword check whose key is absent, placed
first, makes the `except` block reference the never-assigned local
`value`, so an `UnboundLocalError` escapes `_validate_arguments` instead
of the failure being recorded. -/
theorem validate_arguments_escape_counterexample :
    validate_arguments
        [⟨.kStr "z", .single ⟨"int"⟩, .KEYWORD,
          "Invalid type for argument 'z': expected int", "z", false⟩]
        [("x", intVal 1)] ["x"] =
      .error (.unboundLocalError
        "cannot access local variable 'value' where it is not associated with a value") :=
  rfl

theorem validateGo_some_total (bound : List (String × PyVal))
    (argNames : List String) (checks : List TypeCheck) :
    ∀ (v : PyVal) (acc : List TypeCheckResult),
      ∃ res, validateGo bound argNames checks (some v) acc = .ok res := by
  induction checks with
  | nil => exact fun v acc => ⟨acc, rfl⟩
  | cons tc rest ih =>
      intro v acc
      by_cases hs : skipCheck tc bound = true
      · simpa [validateGo, hs] using ih v acc
      · rcases hr : resolve_argument_value tc bound argNames with e | v'
        · simpa [validateGo, hs, hr] using ih v (acc ++ [⟨tc, v, false⟩])
        · rcases hval : tc.validate v' with e' | w
          · simpa [validateGo, hs, hr, hval] using ih v' (acc ++ [⟨tc, v', false⟩])
          · simpa [validateGo, hs, hr, hval] using ih v' (acc ++ [⟨tc, v', true⟩])

/-- A plain keyword check for a key that witnesses' calls never bind. -/
def absentKeyCheck : TypeCheck :=
  ⟨.kStr "z", .single ⟨"int"⟩, .KEYWORD,
    "Invalid type for argument 'z': expected int", "z", false⟩

/-- C9 (amended): an exception raised while validating a resolved value is
always caught and recorded; an exception raised while resolving a check's
value is caught — recording a failed result that carries the most recently
resolved value — only when an earlier check of the same call already
resolved a value; when no value has been resolved yet, the resolution
exception surfaces as an `UnboundLocalError` escaping
`_validate_arguments`. -/
theorem validate_arguments_exception_handling :
    (∀ (bound : List (String × PyVal)) (argNames : List String)
        (checks : List TypeCheck) (v : PyVal) (acc : List TypeCheckResult),
      ∃ res, validateGo bound argNames checks (some v) acc = .ok res) ∧
    (∀ (bound : List (String × PyVal)) (argNames : List String)
        (tc : TypeCheck) (rest : List TypeCheck) (acc : List TypeCheckResult)
        (e : PyError),
      skipCheck tc bound = false →
      resolve_argument_value tc bound argNames = .error e →
      validateGo bound argNames (tc :: rest) none acc =
        .error (.unboundLocalError
          "cannot access local variable 'value' where it is not associated with a value")) ∧
    (∀ (bound : List (String × PyVal)) (argNames : List String)
        (tc : TypeCheck) (rest : List TypeCheck) (acc : List TypeCheckResult)
        (e : PyError) (v : PyVal),
      skipCheck tc bound = false →
      resolve_argument_value tc bound argNames = .error e →
      validateGo bound argNames (tc :: rest) (some v) acc =
        validateGo bound argNames rest (some v) (acc ++ [⟨tc, v, false⟩])) ∧
    (∀ (bound : List (String × PyVal)) (argNames : List String)
        (tc : TypeCheck) (rest : List TypeCheck) (st : Option PyVal)
        (acc : List TypeCheckResult) (v : PyVal),
      skipCheck tc bound = false →
      resolve_argument_value tc bound argNames = .ok v →
      validateGo bound argNames (tc :: rest) st acc =
        validateGo bound argNames rest (some v) (acc ++ [⟨tc, v, passedFlag tc v⟩])) := by
  refine ⟨validateGo_some_total, ?_, ?_, ?_⟩
  · intro bound argNames tc rest acc e hs hr
    simp [validateGo, hs, hr]
  · intro bound argNames tc rest acc e v hs hr
    simp [validateGo, hs, hr]
  · intro bound argNames tc rest st acc v hs hr
    rcases hval : tc.validate v with e' | w <;>
      simp [validateGo, hs, hr, passedFlag, hval]

/-- Witness for C9 (amended): once a value is resolved everything is
caught, while a leading unresolvable check escapes. -/
theorem validate_arguments_exception_handling_witness :
    (∃ res, validateGo [("x", intVal 1)] ["x"] [absentKeyCheck]
        (some (intVal 1)) [] = .ok res) ∧
    skipCheck absentKeyCheck [("x", intVal 1)] = false ∧
    validateGo [("x", intVal 1)] ["x"] [absentKeyCheck] none [] =
      .error (.unboundLocalError
        "cannot access local variable 'value' where it is not associated with a value") :=
  ⟨validate_arguments_exception_handling.1 [("x", intVal 1)] ["x"]
     [absentKeyCheck] (intVal 1) [],
   by decide,
   validate_arguments_exception_handling.2.1 [("x", intVal 1)] ["x"]
     absentKeyCheck [] []
     (.keyError "Expected keyword 'z', but it was not provided.")
     (by decide) rfl⟩

theorem validateGo_skip_absent (bound : List (String × PyVal))
    (argNames : List String) (c : TypeCheck)
    (hd : c.isDefaultKwarg = true) (hk : c.arg_kind = .KEYWORD)
    (hb : keyInBound c.key bound = false) :
    ∀ (pre post : List TypeCheck) (st : Option PyVal) (acc : List TypeCheckResult),
      validateGo bound argNames (pre ++ c :: post) st acc =
        validateGo bound argNames (pre ++ post) st acc := by
  have hskip : skipCheck c bound = true := by simp [skipCheck, hd, hk, hb]
  intro pre
  induction pre with
  | nil =>
      intro post st acc
      simp [validateGo, hskip]
  | cons tc pre ih =>
      intro post st acc
      simp only [List.cons_append, validateGo]
      by_cases hs : skipCheck tc bound = true
      · simp only [hs, if_true]
        exact ih post st acc
      · rcases hr : resolve_argument_value tc bound argNames with e | v
        · cases st with
          | some v0 =>
              simp only [hs, hr, if_false, Bool.not_eq_true]
              exact ih post (some v0) (acc ++ [⟨tc, v0, false⟩])
          | none => simp [hs, hr]
        · rcases hval : tc.validate v with e' | w
          · simp only [hs, hr, hval, if_false, Bool.not_eq_true]
            exact ih post (some v) (acc ++ [⟨tc, v, false⟩])
          · simp only [hs, hr, hval, if_false, Bool.not_eq_true]
            exact ih post (some v) (acc ++ [⟨tc, v, true⟩])

theorem validate_arguments_skip_absent (bound : List (String × PyVal))
    (argNames : List String) (c : TypeCheck) (pre post : List TypeCheck)
    (hd : c.isDefaultKwarg = true) (hk : c.arg_kind = .KEYWORD)
    (hb : keyInBound c.key bound = false) :
    validate_arguments (pre ++ c :: post) bound argNames =
      validate_arguments (pre ++ post) bound argNames := by
  unfold validate_arguments
  rw [validateGo_skip_absent bound argNames c hd hk hb pre post none []]

/-- C7: a check created from the keyword shorthand (and every
`DefaultTypeCheckKwarg`) is a keyword check flagged to skip; whenever its
key is absent from the bound arguments after defaults are applied it
contributes neither a passed nor a failed result, and the call proceeds
exactly as if the check did not exist. -/
theorem default_kwarg_skipped_when_absent :
    (∀ (k : String) (t : PyType),
      (DefaultTypeCheckKwarg.from_pair k t).isDefaultKwarg = true ∧
      (DefaultTypeCheckKwarg.from_pair k t).arg_kind = .KEYWORD ∧
      (DefaultTypeCheckKwarg.from_pair k t).key = .kStr k) ∧
    (∀ (sh : List (String × PyType)),
      normalizeChecks .noChecks sh =
        sh.map (fun p => DefaultTypeCheckKwarg.from_pair p.1 p.2)) ∧
    (∀ (bound : List (String × PyVal)) (argNames : List String)
        (c : TypeCheck) (pre post : List TypeCheck),
      c.isDefaultKwarg = true → c.arg_kind = .KEYWORD →
      keyInBound c.key bound = false →
      validate_arguments (pre ++ c :: post) bound argNames =
        validate_arguments (pre ++ post) bound argNames) ∧
    (∀ (pre post : List TypeCheck) (c : TypeCheck) (onF : Option HandlerSpec)
        (f : FuncModel) (args : List PyVal) (kwargs bound : List (String × PyVal)),
      c.isDefaultKwarg = true → c.arg_kind = .KEYWORD →
      bindApplyDefaults f.sig args kwargs = .ok bound →
      keyInBound c.key bound = false →
      callWrapped ⟨pre ++ c :: post, onF⟩ f args kwargs =
        callWrapped ⟨pre ++ post, onF⟩ f args kwargs) := by
  refine ⟨fun k t => ⟨rfl, rfl, rfl⟩, fun sh => by simp [normalizeChecks], ?_, ?_⟩
  · intro bound argNames c pre post hd hk hb
    exact validate_arguments_skip_absent bound argNames c pre post hd hk hb
  · intro pre post c onF f args kwargs bound hd hk hbind hb
    have hkind : createWrapperKind ⟨pre ++ c :: post, onF⟩ f =
        createWrapperKind ⟨pre ++ post, onF⟩ f := rfl
    unfold callWrapped
    rw [hkind]
    have hval := validate_arguments_skip_absent bound (bound.map (·.1)) c pre post hd hk hb
    cases createWrapperKind ⟨pre ++ post, onF⟩ f with
    | sync =>
        unfold syncWrapperCall
        rw [hbind]
        simp only [hval]
    | async =>
        unfold asyncWrapperCall
        rw [hbind]
        simp only [hval]

/-- Witness for C7: a shorthand check for an unbound keyword is skipped in
a concrete call. -/
theorem default_kwarg_skipped_when_absent_witness :
    (DefaultTypeCheckKwarg.from_pair "z" ⟨"int"⟩).isDefaultKwarg = true ∧
    keyInBound (DefaultTypeCheckKwarg.from_pair "z" ⟨"int"⟩).key
      [("x", intVal 3)] = false ∧
    callWrapped ⟨[DefaultTypeCheckKwarg.from_pair "z" ⟨"int"⟩], none⟩
        ⟨[⟨"x", none⟩], false, fun _ _ => intVal 9⟩ [intVal 3] [] =
      callWrapped ⟨[], none⟩
        ⟨[⟨"x", none⟩], false, fun _ _ => intVal 9⟩ [intVal 3] [] :=
  ⟨rfl, by decide,
   default_kwarg_skipped_when_absent.2.2.2 [] []
     (DefaultTypeCheckKwarg.from_pair "z" ⟨"int"⟩) none
     ⟨[⟨"x", none⟩], false, fun _ _ => intVal 9⟩ [intVal 3] []
     [("x", intVal 3)] rfl rfl rfl (by decide)⟩

theorem handle_failures_nil (onF : Option HandlerSpec) :
    handle_failures onF [] = (.ok (), []) := rfl

theorem handle_failures_async_nil (onF : Option HandlerSpec) :
    handle_failures_async onF [] = (.ok (), []) := rfl

theorem handle_failures_events (onF : Option HandlerSpec)
    (failed : List TypeCheckResult) (hne : failed ≠ []) :
    ∃ ud aw, (handle_failures onF failed).2 = [.handlerCall failed ud aw] := by
  cases failed with
  | nil => exact absurd rfl hne
  | cons a l => cases onF <;> exact ⟨_, _, rfl⟩

theorem handle_failures_async_events (onF : Option HandlerSpec)
    (failed : List TypeCheckResult) (hne : failed ≠ []) :
    ∃ ud aw, (handle_failures_async onF failed).2 = [.handlerCall failed ud aw] := by
  cases failed with
  | nil => exact absurd rfl hne
  | cons a l => cases onF <;> exact ⟨_, _, rfl⟩

/-- C1: for every call to a wrapped function in which at least one check
fails, the failure handler (the supplied `on_failure`, else the default)
is invoked exactly once, receiving all of the failed results collected
across every check; for every call in which no check fails, no handler is
invoked and the wrapper returns the wrapped function's result. -/
theorem handler_invoked_exactly_once (dec : Decorator) (f : FuncModel)
    (args : List PyVal) (kwargs bound : List (String × PyVal))
    (allr failed : List TypeCheckResult)
    (hb : bindApplyDefaults f.sig args kwargs = .ok bound)
    (hv : validate_arguments dec.normalized_checks bound (bound.map (·.1)) =
      .ok (allr, failed)) :
    (failed ≠ [] → ∃ ud aw,
      (callWrapped dec f args kwargs).2.filter Event.isHandlerCall =
        [.handlerCall failed ud aw]) ∧
    (failed = [] →
      (callWrapped dec f args kwargs).2.filter Event.isHandlerCall = [] ∧
      (callWrapped dec f args kwargs).1 = .ok (f.impl args kwargs)) := by
  unfold callWrapped
  cases hk : createWrapperKind dec f with
  | sync =>
      unfold syncWrapperCall
      simp only [hb, hv]
      constructor
      · intro hne
        obtain ⟨ud, aw, hev⟩ := handle_failures_events dec.on_failure failed hne
        rcases hres : (handle_failures dec.on_failure failed).1 with e | u
        · simp only [hres, hev]
          exact ⟨ud, aw, rfl⟩
        · simp only [hres, hev]
          exact ⟨ud, aw, by simp [List.filter, Event.isHandlerCall]⟩
      · rintro rfl
        rw [handle_failures_nil]
        simp [List.filter, Event.isHandlerCall]
  | async =>
      unfold asyncWrapperCall
      simp only [hb, hv]
      constructor
      · intro hne
        obtain ⟨ud, aw, hev⟩ := handle_failures_async_events dec.on_failure failed hne
        rcases hres : (handle_failures_async dec.on_failure failed).1 with e | u
        · simp only [hres, hev]
          exact ⟨ud, aw, rfl⟩
        · simp only [hres, hev]
          exact ⟨ud, aw, by simp [List.filter, Event.isHandlerCall]⟩
      · rintro rfl
        rw [handle_failures_async_nil]
        simp [List.filter, Event.isHandlerCall]

/-- A positional int check for the witnesses' calls. -/
def posIntCheck : TypeCheck :=
  ⟨.kInt 0, .single ⟨"int"⟩, .POSITIONAL,
    "Invalid type for argument '0': expected int", "0", false⟩

/-- Decorator and function used by the C1 witness. -/
def decC1 : Decorator := ⟨[posIntCheck], none⟩

def fC1 : FuncModel := ⟨[⟨"x", none⟩], false, fun _ _ => intVal 7⟩

/-- Witness for C1: one failing call (handler invoked once with the failed
result) and one passing call (no handler, wrapped result returned). -/
theorem handler_invoked_exactly_once_witness :
    (∃ ud aw, (callWrapped decC1 fC1 [strVal "bad"] []).2.filter
        Event.isHandlerCall =
      [.handlerCall [⟨posIntCheck, strVal "bad", false⟩] ud aw]) ∧
    (callWrapped decC1 fC1 [intVal 5] []).2.filter Event.isHandlerCall = [] ∧
    (callWrapped decC1 fC1 [intVal 5] []).1 = .ok (intVal 7) :=
  ⟨(handler_invoked_exactly_once decC1 fC1 [strVal "bad"] []
      [("x", strVal "bad")] [⟨posIntCheck, strVal "bad", false⟩]
      [⟨posIntCheck, strVal "bad", false⟩] rfl rfl).1 (by simp),
   (handler_invoked_exactly_once decC1 fC1 [intVal 5] []
      [("x", intVal 5)] [⟨posIntCheck, intVal 5, true⟩] [] rfl rfl).2 rfl⟩

/-- C5: the decorator produces an asynchronous wrapper exactly when the
wrapped function or the supplied `on_failure` handler is a coroutine
function; awaiting that wrapper on an all-pass call returns the wrapped
function's result, awaited when the wrapped function is a coroutine and
called plainly otherwise; and a coroutine `on_failure` handler is awaited
rather than merely called. -/
theorem async_wrapper_behaviour (dec : Decorator) (f : FuncModel)
    (args : List PyVal) (kwargs bound : List (String × PyVal))
    (allr failed : List TypeCheckResult) (h : HandlerSpec)
    (hb : bindApplyDefaults f.sig args kwargs = .ok bound)
    (hv : validate_arguments dec.normalized_checks bound (bound.map (·.1)) =
      .ok (allr, failed)) :
    (createWrapperKind dec f = .async ↔
      (f.isCoroutine = true ∨ isHandlerAsync dec = true)) ∧
    (createWrapperKind dec f = .async → failed = [] →
      callWrapped dec f args kwargs =
        (.ok (f.impl args kwargs), [.funcCall f.isCoroutine])) ∧
    (dec.on_failure = some h → h.isCoroutine = true → failed ≠ [] →
      (callWrapped dec f args kwargs).2.filter Event.isHandlerCall =
        [.handlerCall failed false true]) := by
  refine ⟨?_, ?_, ?_⟩
  · unfold createWrapperKind
    by_cases hc : (f.isCoroutine || isHandlerAsync dec) = true
    · simp only [hc, if_true]
      simp only [Bool.or_eq_true] at hc
      simp [hc]
    · simp only [hc, if_false, Bool.not_eq_true]
      simp only [Bool.or_eq_true, not_or] at hc
      constructor
      · intro hcontra
        cases hcontra
      · intro hor
        rcases hor with h1 | h2
        · exact absurd h1 hc.1
        · exact absurd h2 hc.2
  · intro hk hempty
    unfold callWrapped
    rw [hk]
    unfold asyncWrapperCall
    subst hempty
    simp only [hb, hv]
    rw [handle_failures_async_nil]
    rfl
  · intro hh hco hne
    have hk : createWrapperKind dec f = .async := by
      simp [createWrapperKind, isHandlerAsync, hh, hco]
    unfold callWrapped
    rw [hk]
    unfold asyncWrapperCall
    simp only [hb, hv]
    cases failed with
    | nil => exact absurd rfl hne
    | cons a l =>
        have hev : handle_failures_async dec.on_failure (a :: l) =
            (h.impl (a :: l), [.handlerCall (a :: l) false true]) := by
          simp [handle_failures_async, hh, hco]
        rcases hres : (handle_failures_async dec.on_failure (a :: l)).1 with e | u <;>
          simp only [hres, hev, List.filter_append, List.filter] <;>
          simp [Event.isHandlerCall]

/-- Async handler and coroutine function used by the C5 witness. -/
def decC5 : Decorator := ⟨[posIntCheck], some ⟨true, fun _ => .ok ()⟩⟩

def fC5 : FuncModel := ⟨[⟨"x", none⟩], true, fun _ _ => intVal 8⟩

/-- Witness for C5: a coroutine function with a coroutine handler gets the
async wrapper; an all-pass call returns the awaited result; a failing call
awaits the coroutine handler. -/
theorem async_wrapper_behaviour_witness :
    createWrapperKind decC5 fC5 = .async ∧
    callWrapped decC5 fC5 [intVal 2] [] = (.ok (intVal 8), [.funcCall true]) ∧
    (callWrapped decC5 fC5 [strVal "no"] []).2.filter Event.isHandlerCall =
      [.handlerCall [⟨posIntCheck, strVal "no", false⟩] false true] :=
  ⟨(async_wrapper_behaviour decC5 fC5 [intVal 2] [] [("x", intVal 2)]
      [⟨posIntCheck, intVal 2, true⟩] [] ⟨true, fun _ => .ok ()⟩ rfl rfl).1.mpr
      (Or.inl rfl),
   (async_wrapper_behaviour decC5 fC5 [intVal 2] [] [("x", intVal 2)]
      [⟨posIntCheck, intVal 2, true⟩] [] ⟨true, fun _ => .ok ()⟩ rfl rfl).2.1
      (by rfl) rfl,
   (async_wrapper_behaviour decC5 fC5 [strVal "no"] [] [("x", strVal "no")]
      [⟨posIntCheck, strVal "no", false⟩] [⟨posIntCheck, strVal "no", false⟩]
      ⟨true, fun _ => .ok ()⟩ rfl rfl).2.2 rfl rfl (by simp)⟩

theorem bindOne_ok_fst (args : List PyVal) (kwargs : List (String × PyVal))
    (i : Nat) (p : Param) (v : String × PyVal)
    (h : bindOne args kwargs i p = .ok v) : v.1 = p.pname := by
  unfold bindOne at h
  rcases hg : args.get? i with _ | a <;> simp only [hg] at h
  · rcases hl : lookupStr kwargs p.pname with _ | w <;> simp only [hl] at h
    · rcases hd : p.default with _ | d <;> simp only [hd] at h
      · cases h
      · cases h
        rfl
    · cases h
      rfl
  · split at h
    · cases h
    · cases h
      rfl

theorem bindOne_default (args : List PyVal) (kwargs : List (String × PyVal))
    (i : Nat) (p : Param) (d : PyVal)
    (hargs : args.get? i = none) (hkw : lookupStr kwargs p.pname = none)
    (hd : p.default = some d) :
    bindOne args kwargs i p = .ok (p.pname, d) := by
  unfold bindOne
  rw [hargs, hkw, hd]

theorem bindParams_cases (args : List PyVal) (kwargs : List (String × PyVal))
    (i : Nat) (p : Param) (rest : List Param) (bound : List (String × PyVal))
    (h : bindParams args kwargs i (p :: rest) = .ok bound) :
    ∃ v others, bindOne args kwargs i p = .ok v ∧
      bindParams args kwargs (i + 1) rest = .ok others ∧ bound = v :: others := by
  unfold bindParams at h
  rcases hv : bindOne args kwargs i p with e | v <;> simp only [hv, Except.bind] at h
  · cases h
  · rcases ho : bindParams args kwargs (i + 1) rest with e | others <;>
      simp only [ho, Except.bind] at h
    · cases h
    · cases h
      exact ⟨v, others, rfl, rfl, rfl⟩

theorem bindParams_names (args : List PyVal) (kwargs : List (String × PyVal)) :
    ∀ (sig : List Param) (i : Nat) (bound : List (String × PyVal)),
      bindParams args kwargs i sig = .ok bound →
      bound.map (·.1) = sig.map (·.pname) := by
  intro sig
  induction sig with
  | nil =>
      intro i bound h
      cases h
      rfl
  | cons p rest ih =>
      intro i bound h
      obtain ⟨v, others, hv, ho, rfl⟩ := bindParams_cases args kwargs i p rest bound h
      simp only [List.map_cons]
      rw [bindOne_ok_fst args kwargs i p v hv, ih (i + 1) others ho]

theorem bindParams_get (args : List PyVal) (kwargs : List (String × PyVal)) :
    ∀ (sig : List Param) (i : Nat) (bound : List (String × PyVal)),
      bindParams args kwargs i sig = .ok bound →
      ∀ (j : Nat) (p : Param), sig.get? j = some p →
        ∃ v, bindOne args kwargs (i + j) p = .ok (p.pname, v) ∧
          bound.get? j = some (p.pname, v) := by
  intro sig
  induction sig with
  | nil =>
      intro i bound h j p hj
      cases hj
  | cons q rest ih =>
      intro i bound h j p hj
      obtain ⟨v, others, hv, ho, rfl⟩ := bindParams_cases args kwargs i q rest bound h
      cases j with
      | zero =>
          simp only [List.get?_cons_zero] at hj
          cases hj
          have hfst := bindOne_ok_fst args kwargs i q v hv
          have hv' : v = (q.pname, v.2) := by
            cases v
            simp_all
          refine ⟨v.2, ?_, ?_⟩
          · rw [Nat.add_zero, ← hv']
            exact hv
          · simp only [List.get?_cons_zero]
            rw [← hv']
      | succ j =>
          simp only [List.get?_cons_succ] at hj
          have heq : i + (j + 1) = (i + 1) + j := by omega
          simp only [heq, List.get?_cons_succ]
          exact ih (i + 1) others ho j p hj

theorem bindApplyDefaults_ok (sig : List Param) (args : List PyVal)
    (kwargs bound : List (String × PyVal))
    (h : bindApplyDefaults sig args kwargs = .ok bound) :
    bindParams args kwargs 0 sig = .ok bound := by
  unfold bindApplyDefaults at h
  split at h
  · cases h
  · split at h
    · cases h
    · exact h

theorem lookupStr_of_get (bound : List (String × PyVal)) :
    ∀ (j : Nat) (n : String) (v : PyVal),
      (bound.map (·.1)).Nodup → bound.get? j = some (n, v) →
      lookupStr bound n = some v := by
  induction bound with
  | nil =>
      intro j n v _ hj
      cases hj
  | cons b rest ih =>
      intro j n v hnd hj
      simp only [List.map_cons, List.nodup_cons] at hnd
      cases j with
      | zero =>
          simp only [List.get?_cons_zero] at hj
          cases hj
          simp [lookupStr, List.find?]
      | succ j =>
          simp only [List.get?_cons_succ] at hj
          have hn : n ∈ rest.map (·.1) := by
            have hmem : (n, v) ∈ rest := List.get?_mem hj
            exact List.mem_map.mpr ⟨(n, v), hmem, rfl⟩
          have hne : b.1 ≠ n := fun hEq => hnd.1 (hEq ▸ hn)
          simp only [lookupStr, List.find?]
          rw [decide_eq_false hne]
          exact ih j n v hnd.2 hj

theorem keyInBound_of_lookup (bound : List (String × PyVal)) (n : String)
    (v : PyVal) (h : lookupStr bound n = some v) :
    keyInBound (.kStr n) bound = true := by
  unfold lookupStr at h
  rcases hf : bound.find? (fun p => p.1 = n) with _ | pair <;> rw [hf] at h
  · cases h
  · have hp : pair.1 = n := by
      have := List.find?_some hf
      simpa using this
    unfold keyInBound
    refine List.any_eq_true.mpr ⟨pair, List.mem_of_find?_eq_some hf, ?_⟩
    simp [hp]

theorem resolve_keyword_found (tc : TypeCheck) (bound : List (String × PyVal))
    (argNames : List String) (s : String) (d : PyVal)
    (hkind : tc.arg_kind = .KEYWORD) (hkey : tc.key = .kStr s)
    (hl : lookupStr bound s = some d) :
    resolve_argument_value tc bound argNames = .ok d := by
  have hkb := keyInBound_of_lookup bound s d hl
  unfold resolve_argument_value
  simp only [hkind, hkey, hkb, if_true, hl]

theorem skipCheck_false_of_found (tc : TypeCheck) (bound : List (String × PyVal))
    (s : String) (d : PyVal) (hkey : tc.key = .kStr s)
    (hl : lookupStr bound s = some d) :
    skipCheck tc bound = false := by
  have hkb := keyInBound_of_lookup bound s d hl
  simp [skipCheck, hkey, hkb]

theorem resolve_positional_found (tc : TypeCheck) (bound : List (String × PyVal))
    (j : Nat) (pn : String) (d : PyVal)
    (hkind : tc.arg_kind = .POSITIONAL) (hkey : tc.key = .kInt j)
    (hget : (bound.map (·.1)).get? j = some pn) (hl : lookupStr bound pn = some d) :
    resolve_argument_value tc bound (bound.map (·.1)) = .ok d := by
  have hidx : pyListIndex (bound.map (·.1)) (j : Int) = some pn := by
    unfold pyListIndex
    rw [if_pos (by exact_mod_cast Nat.zero_le j)]
    simpa using hget
  unfold resolve_argument_value
  simp only [hkind, hkey, pyIntOfKey, hidx, hl]

/-- C4: the values the checks are evaluated against come from binding the
call's actual arguments to the declared parameters with defaults applied:
a declared parameter the caller did not supply is bound to its declared
default, and a check naming or positionally indexing it resolves to that
default value rather than being skipped. -/
theorem checks_use_bound_defaults (sig : List Param) (args : List PyVal)
    (kwargs bound : List (String × PyVal)) (j : Nat) (p : Param) (d : PyVal)
    (hnodup : (sig.map (·.pname)).Nodup)
    (hb : bindApplyDefaults sig args kwargs = .ok bound)
    (hj : sig.get? j = some p)
    (hargs : args.length ≤ j)
    (hkw : lookupStr kwargs p.pname = none)
    (hd : p.default = some d) :
    bound.map (·.1) = sig.map (·.pname) ∧
    bound.get? j = some (p.pname, d) ∧
    lookupStr bound p.pname = some d ∧
    (∀ tc : TypeCheck, tc.arg_kind = .KEYWORD → tc.key = .kStr p.pname →
      resolve_argument_value tc bound (bound.map (·.1)) = .ok d ∧
      skipCheck tc bound = false) ∧
    (∀ tc : TypeCheck, tc.arg_kind = .POSITIONAL → tc.key = .kInt j →
      resolve_argument_value tc bound (bound.map (·.1)) = .ok d) := by
  have hbp := bindApplyDefaults_ok sig args kwargs bound hb
  have hnames := bindParams_names args kwargs sig 0 bound hbp
  obtain ⟨v, hvone, hvget⟩ := bindParams_get args kwargs sig 0 bound hbp j p hj
  have hargNone : args.get? j = none := List.get?_eq_none.mpr hargs
  have hone : bindOne args kwargs (0 + j) p = .ok (p.pname, d) := by
    rw [Nat.zero_add]
    exact bindOne_default args kwargs j p d hargNone hkw hd
  have hvd : v = d := by
    rw [hone] at hvone
    cases hvone
    rfl
  subst hvd
  have hboundNodup : (bound.map (·.1)).Nodup := by
    rw [hnames]
    exact hnodup
  have hlook : lookupStr bound p.pname = some v :=
    lookupStr_of_get bound j p.pname v hboundNodup hvget
  refine ⟨hnames, hvget, hlook, ?_, ?_⟩
  · intro tc hkind hkey
    exact ⟨resolve_keyword_found tc bound (bound.map (·.1)) p.pname v hkind hkey hlook,
      skipCheck_false_of_found tc bound p.pname v hkey hlook⟩
  · intro tc hkind hkey
    have hget : (bound.map (·.1)).get? j = some p.pname := by
      rw [List.get?_eq_getElem?, List.getElem?_map, ← List.get?_eq_getElem?, hvget]
      rfl
    exact resolve_positional_found tc bound j p.pname v hkind hkey hget hlook

/-- Witness for C4: parameter `b` with default `7` is unsupplied; both a
keyword check (a shorthand `DefaultTypeCheckKwarg`, not skipped) and a
positional check resolve to the default. -/
theorem checks_use_bound_defaults_witness :
    bindApplyDefaults [⟨"a", none⟩, ⟨"b", some (intVal 7)⟩] [strVal "v"] [] =
      .ok [("a", strVal "v"), ("b", intVal 7)] ∧
    resolve_argument_value (DefaultTypeCheckKwarg.from_pair "b" ⟨"int"⟩)
        [("a", strVal "v"), ("b", intVal 7)] ["a", "b"] = .ok (intVal 7) ∧
    skipCheck (DefaultTypeCheckKwarg.from_pair "b" ⟨"int"⟩)
        [("a", strVal "v"), ("b", intVal 7)] = false ∧
    resolve_argument_value
        ⟨.kInt 1, .single ⟨"int"⟩, .POSITIONAL, "m", "1", false⟩
        [("a", strVal "v"), ("b", intVal 7)] ["a", "b"] = .ok (intVal 7) :=
  ⟨rfl,
   ((checks_use_bound_defaults [⟨"a", none⟩, ⟨"b", some (intVal 7)⟩]
      [strVal "v"] [] [("a", strVal "v"), ("b", intVal 7)] 1
      ⟨"b", some (intVal 7)⟩ (intVal 7) (by decide) rfl rfl (by decide)
      rfl rfl).2.2.2.1 (DefaultTypeCheckKwarg.from_pair "b" ⟨"int"⟩)
      rfl rfl).1,
   ((checks_use_bound_defaults [⟨"a", none⟩, ⟨"b", some (intVal 7)⟩]
      [strVal "v"] [] [("a", strVal "v"), ("b", intVal 7)] 1
      ⟨"b", some (intVal 7)⟩ (intVal 7) (by decide) rfl rfl (by decide)
      rfl rfl).2.2.2.1 (DefaultTypeCheckKwarg.from_pair "b" ⟨"int"⟩)
      rfl rfl).2,
   (checks_use_bound_defaults [⟨"a", none⟩, ⟨"b", some (intVal 7)⟩]
      [strVal "v"] [] [("a", strVal "v"), ("b", intVal 7)] 1
      ⟨"b", some (intVal 7)⟩ (intVal 7) (by decide) rfl rfl (by decide)
      rfl rfl).2.2.2.2
      ⟨.kInt 1, .single ⟨"int"⟩, .POSITIONAL, "m", "1", false⟩ rfl rfl⟩

/-- Decorator (one positional int check, non-raising custom handler) and
function used to refute C10. -/
def decC10 : Decorator := ⟨[posIntCheck], some ⟨false, fun _ => .ok ()⟩⟩

def fC10 : FuncModel := ⟨[⟨"x", none⟩], false, fun _ _ => intVal 42⟩

/-- C10 counterexample: on the same failing call with the same non-raising
handler, `type_checking`'s sync wrapper still calls the wrapped function
and returns its result, while `typesentinel`'s skips the call and returns
`None` — the wrappers are not equivalent. -/
theorem sync_wrappers_not_equivalent :
    (syncWrapperCall decC10 fC10 [strVal "bad"] []).1 = .ok (intVal 42) ∧
    (tsSyncWrapperCall decC10 fC10 [strVal "bad"] []).1 = .ok pyNone ∧
    intVal 42 ≠ pyNone ∧
    (syncWrapperCall decC10 fC10 [strVal "bad"] []).2.contains (.funcCall false) = true ∧
    (tsSyncWrapperCall decC10 fC10 [strVal "bad"] []).2.contains (.funcCall false) = false :=
  ⟨rfl, rfl, by decide, rfl, rfl⟩

theorem renameCheckIfNeeded_custom (tc : TypeCheck) (argNames : List String)
    (h : tc.name ≠ strOfKey tc.key) : renameCheckIfNeeded tc argNames = tc := by
  unfold renameCheckIfNeeded
  rw [if_pos h]

theorem tsValidateGo_eq (bound : List (String × PyVal)) (argNames : List String) :
    ∀ (checks : List TypeCheck),
      (∀ tc ∈ checks, tc.name ≠ strOfKey tc.key) →
      ∀ (st : Option PyVal) (acc : List TypeCheckResult),
        tsValidateGo bound argNames checks st acc =
          validateGo bound argNames checks st acc := by
  intro checks
  induction checks with
  | nil =>
      intro _ st acc
      rfl
  | cons tc rest ih =>
      intro h st acc
      have hr := renameCheckIfNeeded_custom tc argNames (h tc (by simp))
      have hrest := ih (fun tc' htc' => h tc' (by simp [htc']))
      simp only [tsValidateGo, validateGo, hr]
      by_cases hs : skipCheck tc bound = true
      · simp only [hs, if_true]
        exact hrest st acc
      · rcases hre : resolve_argument_value tc bound argNames with e | v
        · cases st with
          | some v0 =>
              simp only [hre, hs, if_false, Bool.not_eq_true]
              exact hrest (some v0) (acc ++ [⟨tc, v0, false⟩])
          | none => simp [hre, hs]
        · rcases hval : tc.validate v with e' | w
          · simp only [hre, hval, hs, if_false, Bool.not_eq_true]
            exact hrest (some v) (acc ++ [⟨tc, v, false⟩])
          · simp only [hre, hval, hs, if_false, Bool.not_eq_true]
            exact hrest (some v) (acc ++ [⟨tc, v, true⟩])

theorem tsValidate_arguments_eq (checks : List TypeCheck)
    (bound : List (String × PyVal)) (argNames : List String)
    (h : ∀ tc ∈ checks, tc.name ≠ strOfKey tc.key) :
    tsValidate_arguments checks bound argNames =
      validate_arguments checks bound argNames := by
  unfold tsValidate_arguments validate_arguments
  rw [tsValidateGo_eq bound argNames checks h none []]

/-- C10 (amended): for the same normalized checks — each carrying a custom
name, so `typesentinel`'s renaming is inert — the same supplied
`on_failure` handler and the same call: when every check passes, both sync
wrappers call the wrapped function and return its result; when some check
fails and the handler raises, both propagate the exception without calling
the wrapped function; but when some check fails and the handler returns
without raising, `type_checking`'s wrapper still calls the wrapped
function and returns its result while `typesentinel`'s wrapper skips the
call and returns `None`. -/
theorem sync_wrappers_relation (dec : Decorator) (f : FuncModel)
    (args : List PyVal) (kwargs bound : List (String × PyVal))
    (allr failed : List TypeCheckResult) (h : HandlerSpec)
    (hn : ∀ tc ∈ dec.normalized_checks, tc.name ≠ strOfKey tc.key)
    (hf : dec.on_failure = some h)
    (hb : bindApplyDefaults f.sig args kwargs = .ok bound)
    (hv : validate_arguments dec.normalized_checks bound (bound.map (·.1)) =
      .ok (allr, failed)) :
    (failed = [] →
      syncWrapperCall dec f args kwargs =
        (.ok (f.impl args kwargs), [.funcCall false]) ∧
      tsSyncWrapperCall dec f args kwargs =
        (.ok (f.impl args kwargs), [.funcCall false])) ∧
    (failed ≠ [] → h.impl failed = .ok () →
      syncWrapperCall dec f args kwargs =
        (.ok (f.impl args kwargs),
          [.handlerCall failed false false, .funcCall false]) ∧
      tsSyncWrapperCall dec f args kwargs =
        (.ok pyNone, [.handlerCall failed false false])) ∧
    (∀ e, failed ≠ [] → h.impl failed = .error e →
      syncWrapperCall dec f args kwargs =
        (.error e, [.handlerCall failed false false]) ∧
      tsSyncWrapperCall dec f args kwargs =
        (.error e, [.handlerCall failed false false])) := by
  have hvts : tsValidate_arguments dec.normalized_checks bound (bound.map (·.1)) =
      .ok (allr, failed) := by
    rw [tsValidate_arguments_eq dec.normalized_checks bound (bound.map (·.1)) hn]
    exact hv
  refine ⟨?_, ?_, ?_⟩
  · rintro rfl
    constructor
    · unfold syncWrapperCall
      simp only [hb, hv]
      rw [handle_failures_nil]
      rfl
    · unfold tsSyncWrapperCall
      simp only [hb, hvts]
  · intro hne himpl
    cases failed with
    | nil => exact absurd rfl hne
    | cons a l =>
        have hh : handle_failures dec.on_failure (a :: l) =
            (.ok (), [.handlerCall (a :: l) false false]) := by
          simp [handle_failures, hf, himpl]
        have hhts : tsHandle_failures dec.on_failure (a :: l) =
            (.ok (), [.handlerCall (a :: l) false false]) := by
          simp [tsHandle_failures, hf, himpl]
        constructor
        · unfold syncWrapperCall
          simp only [hb, hv, hh]
          rfl
        · unfold tsSyncWrapperCall
          simp only [hb, hvts, hhts]
  · intro e hne himpl
    cases failed with
    | nil => exact absurd rfl hne
    | cons a l =>
        have hh : handle_failures dec.on_failure (a :: l) =
            (.error e, [.handlerCall (a :: l) false false]) := by
          simp [handle_failures, hf, himpl]
        have hhts : tsHandle_failures dec.on_failure (a :: l) =
            (.error e, [.handlerCall (a :: l) false false]) := by
          simp [tsHandle_failures, hf, himpl]
        constructor
        · unfold syncWrapperCall
          simp only [hb, hv, hh]
        · unfold tsSyncWrapperCall
          simp only [hb, hvts, hhts]

/-- A positional int check carrying a custom name, so `typesentinel`'s
renaming leaves it unchanged. -/
def namedPosIntCheck : TypeCheck :=
  ⟨.kInt 0, .single ⟨"int"⟩, .POSITIONAL, "custom message", "val", false⟩

/-- Decorator used by the C10 witness. -/
def decC10named : Decorator := ⟨[namedPosIntCheck], some ⟨false, fun _ => .ok ()⟩⟩

/-- Witness for C10 (amended): a passing call agrees on both wrappers; a
failing call with the non-raising handler diverges exactly as stated. -/
theorem sync_wrappers_relation_witness :
    (syncWrapperCall decC10named fC10 [intVal 1] [] =
        (.ok (intVal 42), [.funcCall false]) ∧
      tsSyncWrapperCall decC10named fC10 [intVal 1] [] =
        (.ok (intVal 42), [.funcCall false])) ∧
    (syncWrapperCall decC10named fC10 [strVal "bad"] [] =
        (.ok (intVal 42),
          [.handlerCall [⟨namedPosIntCheck, strVal "bad", false⟩] false false,
            .funcCall false]) ∧
      tsSyncWrapperCall decC10named fC10 [strVal "bad"] [] =
        (.ok pyNone,
          [.handlerCall [⟨namedPosIntCheck, strVal "bad", false⟩] false false])) :=
  ⟨(sync_wrappers_relation decC10named fC10 [intVal 1] [] [("x", intVal 1)]
      [⟨namedPosIntCheck, intVal 1, true⟩] [] ⟨false, fun _ => .ok ()⟩
      (by intro tc htc
          rw [List.mem_singleton.mp htc]
          decide)
      rfl rfl rfl).1 rfl,
   (sync_wrappers_relation decC10named fC10 [strVal "bad"] [] [("x", strVal "bad")]
      [⟨namedPosIntCheck, strVal "bad", false⟩]
      [⟨namedPosIntCheck, strVal "bad", false⟩] ⟨false, fun _ => .ok ()⟩
      (by intro tc htc
          rw [List.mem_singleton.mp htc]
          decide)
      rfl rfl rfl).2.1 (by simp) rfl⟩
